import Mathlib

/-!
Verification development for the Vuex network store module
(src/store/Network.ts) of the symbol-desktop-wallet repository.

The definitions below are a shallow embedding of that module:
JavaScript numbers that flow through the block range planner are
modelled by JsNum (a natural number or Infinity, because
Math.min() of an empty argument list yields Infinity), the Vuex
state is a record, actions are state transformers, a thrown
JavaScript exception is an Except error value carrying the state
that was current at the throw point, and the results of the
transport collaborator (RESTService) are supplied as parameters.
-/

/-- JavaScript number as used by the block height code paths:
either a natural number or the value Infinity. Infinity arises in
the source because Math.min applied to zero arguments returns
Infinity (ECMA-262, Math.min). -/
inductive JsNum where
  | num : Nat → JsNum
  | inf : JsNum
deriving DecidableEq, Repr

/-- JavaScript addition restricted to the values above:
Infinity plus anything is Infinity. -/
def jsAdd : JsNum → JsNum → JsNum
  | JsNum.num a, JsNum.num b => JsNum.num (a + b)
  | _, _ => JsNum.inf

/-- JavaScript strict comparison a < b on JsNum. -/
def jsLt : JsNum → JsNum → Bool
  | JsNum.num a, JsNum.num b => decide (a < b)
  | JsNum.num _, JsNum.inf => true
  | JsNum.inf, _ => false

/-- JavaScript comparison a <= b on JsNum. -/
def jsLe : JsNum → JsNum → Bool
  | JsNum.num a, JsNum.num b => decide (a ≤ b)
  | JsNum.num _, JsNum.inf => true
  | JsNum.inf, JsNum.num _ => false
  | JsNum.inf, JsNum.inf => true

/-- Binary minimum on JsNum, as Math.min computes it pairwise. -/
def jsMin2 (a b : JsNum) : JsNum := if jsLt a b then a else b

/-- Math.min(...heights) from line 40 of Network.ts: folds the
binary minimum over the list, starting from Infinity, which is
exactly the ECMA-262 behaviour (Math.min() with no arguments is
Infinity). -/
def mathMin (l : List JsNum) : JsNum := l.foldr jsMin2 JsNum.inf

/-- BlockRangeType from Network.ts line 65: a record with a single
field start. -/
structure BlockRange where
  start : JsNum
deriving DecidableEq, Repr

/-- Fuelled version of the recursive helper getBlockRanges
(Network.ts lines 37 to 51). Each step registers the range
starting at the minimum of the remaining heights, keeps only the
heights strictly greater than that minimum plus the page size 100,
and recurses when any height remains. The fuel argument makes the
recursion structural; the theorem for claim C10 proves that fuel
equal to the list length plus one always suffices, so the zero
fuel branch is never reached from getBlockRanges. -/
def getBlockRangesFuel : Nat → List JsNum → List BlockRange
  | 0, _ => []
  | fuel + 1, heights =>
    BlockRange.mk (mathMin heights) ::
      (if heights.filter (fun height =>
            jsLt (jsAdd (mathMin heights) (JsNum.num 100)) height) = [] then []
       else getBlockRangesFuel fuel (heights.filter (fun height =>
            jsLt (jsAdd (mathMin heights) (JsNum.num 100)) height)))

/-- The recursive helper getBlockRanges of Network.ts lines 37-51,
obtained from the fuelled version with sufficient fuel. -/
def getBlockRanges (heights : List JsNum) : List BlockRange :=
  getBlockRangesFuel (heights.length + 1) heights

/-- The minimum plus one hundred is never strictly below the
minimum itself, for any JsNum. -/
theorem jsLt_add100_self (a : JsNum) : jsLt (jsAdd a (JsNum.num 100)) a = false := by
  cases a <;> simp [jsAdd, jsLt]

/-- Any JsNum is at most itself plus one hundred. -/
theorem jsLe_add100_self (a : JsNum) : jsLe a (jsAdd a (JsNum.num 100)) = true := by
  cases a <;> simp [jsAdd, jsLe]

/-- Transitivity combining jsLe and jsLt. -/
theorem jsLt_of_jsLe_of_jsLt {a b c : JsNum} (h1 : jsLe a b = true)
    (h2 : jsLt b c = true) : jsLt a c = true := by
  cases a <;> cases b <;> cases c <;> simp_all [jsLe, jsLt] <;> omega

/-- The minimum of a nonempty list of JsNum is a member of the
list (Math.min over actual arguments returns one of them). -/
theorem mathMin_mem : ∀ (l : List JsNum), l ≠ [] → mathMin l ∈ l := by
  intro l
  induction l with
  | nil => intro h; exact absurd rfl h
  | cons a t ih =>
    intro _
    show jsMin2 a (mathMin t) ∈ a :: t
    by_cases hlt : jsLt a (mathMin t) = true
    · simp [jsMin2, hlt]
    · cases t with
      | nil =>
        cases a with
        | num n => simp [mathMin, jsLt] at hlt
        | inf => simp [jsMin2, mathMin]
      | cons b t2 =>
        have hm := ih (by simp)
        simp only [jsMin2, if_neg hlt]
        exact List.mem_cons_of_mem a hm

/-- Removing a list member that fails the filter predicate makes
the filtered list strictly shorter. -/
theorem length_filter_lt (p : JsNum → Bool) :
    ∀ (l : List JsNum) (x : JsNum), x ∈ l → p x = false →
      (l.filter p).length < l.length := by
  intro l
  induction l with
  | nil => intro x hx; exact absurd hx (List.not_mem_nil x)
  | cons a t ih =>
    intro x hx hpx
    rcases List.mem_cons.mp hx with h | h
    · subst h
      simp only [List.filter_cons, hpx, Bool.false_eq_true, if_false, List.length_cons]
      exact Nat.lt_succ_of_le (List.length_filter_le p t)
    · have hlt := ih x h hpx
      cases hpa : p a <;> simp [List.filter_cons, hpa] <;> omega

/-- The filter step of getBlockRanges strictly shortens a nonempty
height list, because the minimum itself never survives the filter. -/
theorem blockRangesFilter_length_lt (heights : List JsNum) (h : heights ≠ []) :
    (heights.filter (fun height =>
        jsLt (jsAdd (mathMin heights) (JsNum.num 100)) height)).length < heights.length :=
  length_filter_lt _ heights (mathMin heights) (mathMin_mem heights h)
    (jsLt_add100_self (mathMin heights))

/-- Any two sufficient fuel values give the same result for the
fuelled range planner. -/
theorem getBlockRangesFuel_irrel : ∀ (f : Nat) (g : Nat) (l : List JsNum),
    l.length < f → l.length < g → getBlockRangesFuel f l = getBlockRangesFuel g l := by
  intro f
  induction f with
  | zero => intro g l hf; omega
  | succ f ih =>
    intro g l hf hg
    cases g with
    | zero => omega
    | succ g =>
      simp only [getBlockRangesFuel]
      by_cases hrest : l.filter (fun height =>
          jsLt (jsAdd (mathMin l) (JsNum.num 100)) height) = []
      · simp [hrest]
      · have hne : l ≠ [] := by
          intro he; subst he; simp at hrest
        have hlen := blockRangesFilter_length_lt l hne
        simp only [hrest, if_false]
        rw [ih g _ (by omega) (by omega)]

/-- Sufficient fuel collapses the fuelled planner to getBlockRanges. -/
theorem getBlockRangesFuel_suff (fuel : Nat) (l : List JsNum) (h : l.length < fuel) :
    getBlockRangesFuel fuel l = getBlockRanges l :=
  getBlockRangesFuel_irrel fuel (l.length + 1) l h (Nat.lt_succ_self _)

/-- Every range start produced by the fuelled planner on a
nonempty height list is one of the input heights. -/
theorem getBlockRangesFuel_start_mem : ∀ (fuel : Nat) (heights : List JsNum),
    heights ≠ [] → ∀ r ∈ getBlockRangesFuel fuel heights, r.start ∈ heights := by
  intro fuel
  induction fuel with
  | zero => intro heights _ r hr; simp [getBlockRangesFuel] at hr
  | succ fuel ih =>
    intro heights hne r hr
    simp only [getBlockRangesFuel] at hr
    rcases List.mem_cons.mp hr with h | h
    · subst h
      exact mathMin_mem heights hne
    · by_cases hrest : heights.filter (fun height =>
          jsLt (jsAdd (mathMin heights) (JsNum.num 100)) height) = []
      · simp [hrest] at h
      · simp only [hrest, if_false] at h
        have := ih _ hrest r h
        exact List.mem_of_mem_filter this

/-- The range starts produced by the fuelled planner are pairwise
strictly increasing. -/
theorem getBlockRangesFuel_pairwise : ∀ (fuel : Nat) (heights : List JsNum),
    List.Pairwise (fun a b : BlockRange => jsLt a.start b.start = true)
      (getBlockRangesFuel fuel heights) := by
  intro fuel
  induction fuel with
  | zero => intro heights; simp [getBlockRangesFuel]
  | succ fuel ih =>
    intro heights
    simp only [getBlockRangesFuel]
    by_cases hrest : heights.filter (fun height =>
        jsLt (jsAdd (mathMin heights) (JsNum.num 100)) height) = []
    · simp [hrest]
    · simp only [hrest, if_false]
      refine List.Pairwise.cons ?_ (ih _)
      intro b hb
      have hmem := getBlockRangesFuel_start_mem fuel _ hrest b hb
      have hgt := (List.mem_filter.mp hmem).2
      exact jsLt_of_jsLe_of_jsLt (jsLe_add100_self (mathMin heights)) hgt

/-- Every range after the first one produced on a nonempty height
list starts strictly above the first minimum plus one hundred. -/
theorem getBlockRanges_tail_gt (heights : List JsNum) (h : heights ≠ []) :
    ∀ r ∈ (getBlockRanges heights).tail,
      jsLt (jsAdd (mathMin heights) (JsNum.num 100)) r.start = true := by
  intro r hr
  simp only [getBlockRanges, getBlockRangesFuel] at hr
  by_cases hrest : heights.filter (fun height =>
      jsLt (jsAdd (mathMin heights) (JsNum.num 100)) height) = []
  · simp [hrest] at hr
  · simp only [hrest, if_false, List.tail_cons] at hr
    have hmem := getBlockRangesFuel_start_mem _ _ hrest r hr
    exact (List.mem_filter.mp hmem).2

/-- Error values thrown by the embedded code. validationError
models the plain Error thrown on an invalid peer URL (the spec
taxonomy names that category ValidationError); typeError models a
JavaScript TypeError; transportError models a failure of a REST
transport call. -/
inductive JsError where
  | validationError : String → JsError
  | typeError : String → JsError
  | transportError : String → JsError
deriving DecidableEq, Repr

/-- Result of URLHelpers.formatUrl: a record exposing a url field,
as used by the store (currentPeer.url). -/
structure FormattedUrl where
  url : String
deriving DecidableEq, Repr

/-- The URLHelpers collaborator (imported by Network.ts, not part
of this slice). The actions are parameterized over it, so the
theorems below hold for every implementation of the helper. -/
structure UrlHelpers where
  isValidURL : String → Bool
  formatUrl : String → FormattedUrl
  httpToWsUrl : String → String

/-- Block metadata as cached by the store; only the height (read
through block.height.compact() in addBlock) and an opaque payload
are relevant here. -/
structure Block where
  height : Nat
  hash : String
deriving DecidableEq, Repr

/-- Node metadata returned by getNodeInfo, kept opaque. -/
structure PeerInfo where
  host : String
deriving DecidableEq, Repr

/-- The state object of the network store (Network.ts lines 70 to
86). knownBlocks is the plain-object map from block height to
block; knownPeers the array of peer URL strings; subscriptions a
list of opaque handles. networkType is the numeric nem2-sdk enum
value (MAIN_NET 104, TEST_NET 152, MIJIN 96, MIJIN_TEST 144). -/
structure NetworkState where
  initialized : Bool
  wsEndpoint : String
  defaultPeer : FormattedUrl
  currentPeer : FormattedUrl
  explorerUrl : String
  networkType : Nat
  generationHash : String
  isConnected : Bool
  nemesisTransactions : List String
  knownPeers : List String
  currentHeight : Nat
  knownBlocks : List (Nat × Block)
  currentPeerInfo : Option PeerInfo
  subscriptions : List Nat
deriving DecidableEq, Repr

/-- Mutation currentPeer (Network.ts lines 106 to 113) for a
defined payload: format the URL, derive the websocket endpoint. -/
def mutCurrentPeer (U : UrlHelpers) (s : NetworkState) (payload : String) : NetworkState :=
  { s with currentPeer := U.formatUrl payload,
           wsEndpoint := U.httpToWsUrl (U.formatUrl payload).url }

/-- Mutation networkType (Network.ts lines 138 to 151): one of the
four recognized enum values is stored unchanged, anything else is
coerced to MIJIN_TEST (144). -/
def mutNetworkType (s : NetworkState) (t : Nat) : NetworkState :=
  { s with networkType := if t = 144 ∨ t = 96 ∨ t = 152 ∨ t = 104 then t else 144 }

/-- Key update on the plain-object block map, as the addBlock
mutation performs it (Network.ts lines 133 to 137): overwrite the
entry for the height if present, otherwise append it. -/
def setBlockKey (m : List (Nat × Block)) (k : Nat) (b : Block) : List (Nat × Block) :=
  if m.any (fun p => p.1 == k) then
    m.map (fun p => if p.1 == k then (k, b) else p)
  else m ++ [(k, b)]

/-- Mutation addBlock (Network.ts lines 133 to 137). -/
def addBlock (s : NetworkState) (b : Block) : NetworkState :=
  { s with knownBlocks := setBlockKey s.knownBlocks b.height b }

/-- Results of the three transport calls awaited by the
initialization action: getNetworkType, getNodeInfo and
getBlockchainHeight (the latter already through compact()). Each
is either a value or a thrown transport error. -/
structure InitTransport where
  getNetworkType : Except JsError Nat
  getNodeInfo : Except JsError PeerInfo
  getBlockchainHeight : Except JsError Nat

/-- Boolean success test on an Except value. -/
def exceptIsOk {α : Type} : Except JsError α → Bool
  | Except.ok _ => true
  | Except.error _ => false

/-- The initialization action of the store (Network.ts lines 165
to 205). The AwaitLock wrapper is not under src; modelled from the
spec: the lock only serializes the callback and does not catch its
failures, so in this sequential embedding running the action runs
the callback body (lines 166 to 201). The body awaits the network
type, then commits currentPeer and setConnected true, then awaits
node info and chain height, then commits networkType,
currentHeight, currentPeerInfo and setInitialized true. The
enclosing try catch absorbs any transport failure after logging,
so the action always returns a state and never rethrows: a failure
leaves exactly the mutations already committed before the failing
await. The un-awaited dispatch of SUBSCRIBE has no synchronous
state effect and is not modelled. -/
def initializeAction (U : UrlHelpers) (t : InitTransport) (s : NetworkState) : NetworkState :=
  match t.getNetworkType with
  | Except.error _ => s
  | Except.ok networkType =>
    match t.getNodeInfo with
    | Except.error _ => { mutCurrentPeer U s s.currentPeer.url with isConnected := true }
    | Except.ok peerInfo =>
      match t.getBlockchainHeight with
      | Except.error _ => { mutCurrentPeer U s s.currentPeer.url with isConnected := true }
      | Except.ok currentHeight =>
        { mutNetworkType { mutCurrentPeer U s s.currentPeer.url with isConnected := true }
            networkType with
          currentHeight := currentHeight,
          currentPeerInfo := some peerInfo,
          initialized := true }

/-- The uninitialization action (Network.ts lines 206 to 212):
UNSUBSCRIBE cancels every channel subscription and closes every
listener (external resources), RESET_SUBSCRIPTIONS empties the
tracked list, then setInitialized false. -/
def uninitializeAction (s : NetworkState) : NetworkState :=
  { s with subscriptions := [], initialized := false }

/-- Action SET_CURRENT_PEER (Network.ts lines 214 to 227). An
invalid URL throws before any commit, so the error carries the
unchanged input state; a valid URL commits the new peer, marks the
store disconnected and uninitialized, and runs the uninitialize
then initialize cycle. -/
def SET_CURRENT_PEER (U : UrlHelpers) (t : InitTransport) (s : NetworkState)
    (currentPeerUrl : String) : Except (JsError × NetworkState) NetworkState :=
  if U.isValidURL currentPeerUrl then
    Except.ok (initializeAction U t (uninitializeAction
      { mutCurrentPeer U s currentPeerUrl with isConnected := false, initialized := false }))
  else
    Except.error
      (JsError.validationError ("Cannot change node. URL is not valid: " ++ currentPeerUrl), s)

/-- Array.prototype.findIndex called with the string peerUrl as
its argument, as on Network.ts line 120. ECMA-262 (section
23.1.3.9) specifies that findIndex throws a TypeError when its
predicate argument is not callable, before inspecting any element,
so this call throws for every array and every string. -/
def jsFindIndexNonCallable (l : List String) (arg : String) : Except JsError Int :=
  Except.error (JsError.typeError "peerUrl is not a function")

/-- Mutation removePeer (Network.ts lines 119 to 128). The first
statement already throws (see jsFindIndexNonCallable), carrying
the unchanged state; the remaining lines 121 to 127 are
unreachable and are therefore modelled as the identity. -/
def removePeer (s : NetworkState) (peerUrl : String) : Except (JsError × NetworkState) NetworkState :=
  match jsFindIndexNonCallable s.knownPeers peerUrl with
  | Except.error e => Except.error (e, s)
  | Except.ok _idx => Except.ok s

/-- Action REMOVE_KNOWN_PEER (Network.ts lines 235 to 237): it
only commits the removePeer mutation. -/
def REMOVE_KNOWN_PEER (s : NetworkState) (peerUrl : String) :
    Except (JsError × NetworkState) NetworkState :=
  removePeer s peerUrl

/-- knownBlocks.find(height) as written on Network.ts lines 284,
288 and 289. state.knownBlocks is initialized to the plain object
literal on line 83 and only ever receives numeric properties
through the addBlock mutation, so it is always a plain object; a
plain object has no find method, hence the property access yields
undefined and the call throws a TypeError for every map and every
height. -/
def objectFind (m : List (Nat × Block)) (height : JsNum) : Except JsError (Option Block) :=
  Except.error (JsError.typeError "knownBlocks.find is not a function")

/-- Array.prototype.filter with a callback that may throw: the
callback runs left to right and the first thrown error aborts the
whole call (an empty array never invokes the callback). -/
def filterJs {α : Type} (p : α → Except JsError Bool) : List α → Except JsError (List α)
  | [] => Except.ok []
  | a :: t =>
    match p a with
    | Except.error e => Except.error e
    | Except.ok b =>
      match filterJs p t with
      | Except.error e => Except.error e
      | Except.ok t2 => Except.ok (if b then a :: t2 else t2)

/-- Array.prototype.map with a callback that may throw, same
left-to-right abort semantics as filterJs. -/
def mapJs {α β : Type} (f : α → Except JsError β) : List α → Except JsError (List β)
  | [] => Except.ok []
  | a :: t =>
    match f a with
    | Except.error e => Except.error e
    | Except.ok b =>
      match mapJs f t with
      | Except.error e => Except.error e
      | Except.ok t2 => Except.ok (b :: t2)

/-- The range truncation and deferral logic of Network.ts lines
292 to 301 applied to the planned ranges. The source reassigns the
local variable ranges to ranges.slice(0, 3) before the setInterval
closure is created; when the timer later fires, the closure reads
the reassigned variable, so the argument it dispatches is the
already truncated list sliced from index 3 — always the empty
list. The first component is the list executed by the current
action, the second the argument of the deferred dispatch (none
when no timer is installed). -/
def planExecution (ranges0 : List BlockRange) : List BlockRange × Option (List BlockRange) :=
  if ranges0.length > 3 then
    (ranges0.take 3, some ((ranges0.take 3).drop 3))
  else
    (ranges0, none)

/-- Value returned by the REST_FETCH_BLOCKS action: either the
blocks array it returns on line 316 or the literal false returned
from the catch block on line 320. -/
inductive FetchReturn where
  | blocks : List (Option Block) → FetchReturn
  | failureSignal : FetchReturn
deriving DecidableEq, Repr

/-- Observable outcome of one REST_FETCH_BLOCKS call: the value
returned to the caller (or the error the action rejects with), the
store state after the synchronous part of the action, the start
heights passed to getBlocksByHeightWithLimit during the action,
and the argument captured for the deferred dispatch, if any. -/
structure FetchOutcome where
  result : Except JsError FetchReturn
  state : NetworkState
  transportCalls : List JsNum
  deferred : Option (List BlockRange)

/-- The commit loop of Network.ts line 315: each entry of the
blocks array is committed through addBlock. A cached lookup can in
principle contribute undefined to the array (line 287 to 289), and
committing undefined would throw inside the try block when
addBlock reads block.height; the state mutated so far is kept in
either case because Vuex commits are immediate. -/
def commitBlocksLoop : NetworkState → List (Option Block) → NetworkState × Option JsError
  | s, [] => (s, none)
  | s, none :: _ => (s, some (JsError.typeError "Cannot read property height of undefined"))
  | s, some b :: rest => commitBlocksLoop (addBlock s b) rest

/-- Action REST_FETCH_BLOCKS (Network.ts lines 280 to 322). Lines
283 to 289 partition the requested heights with knownBlocks.find,
which throws a TypeError on the first element it is applied to
(see objectFind); that code runs before the try block, so the
whole action rejects with the TypeError whenever blockHeights is
nonempty. When the partition code survives (only possible for the
empty request list), the planner and the truncation logic of lines
292 to 301 run, the try block issues one getBlocksByHeightWithLimit
call per retained range inside un-awaited async callbacks (lines
309 to 312) whose page results are concatenated to the local
variable only after the action has already returned, commits the
blocks array (at that moment still only the cached entries) on
line 315 and returns it; a throw inside the try block is answered
by returning the literal false (line 320). -/
def REST_FETCH_BLOCKS (s : NetworkState) (blockHeights : List JsNum) : FetchOutcome :=
  match filterJs (fun height =>
      match objectFind s.knownBlocks height with
      | Except.error e => Except.error e
      | Except.ok found => Except.ok found.isNone) blockHeights with
  | Except.error e => FetchOutcome.mk (Except.error e) s [] none
  | Except.ok heights =>
    match filterJs (fun height =>
        match objectFind s.knownBlocks height with
        | Except.error e => Except.error e
        | Except.ok found => Except.ok found.isSome) blockHeights with
    | Except.error e => FetchOutcome.mk (Except.error e) s [] none
    | Except.ok cachedHeights =>
      match mapJs (fun known => objectFind s.knownBlocks known) cachedHeights with
      | Except.error e => FetchOutcome.mk (Except.error e) s [] none
      | Except.ok blocks =>
        match planExecution (getBlockRanges heights) with
        | (ranges, deferred) =>
          match commitBlocksLoop s blocks with
          | (sAfter, some _e) =>
            FetchOutcome.mk (Except.ok FetchReturn.failureSignal) sAfter
              (ranges.map (fun r => r.start)) deferred
          | (sAfter, none) =>
            FetchOutcome.mk (Except.ok (FetchReturn.blocks blocks)) sAfter
              (ranges.map (fun r => r.start)) deferred

/-- Concrete URL helper used by witnesses: only the local node URL
is accepted as valid. -/
def sampleUrlHelpers : UrlHelpers :=
  UrlHelpers.mk (fun u => u == "http://localhost:3000") (fun u => FormattedUrl.mk u)
    (fun u => String.append "ws" u)

/-- Concrete store state used by witnesses, shaped like the
initial state of Network.ts lines 70 to 86. -/
def sampleState : NetworkState :=
  NetworkState.mk false "ws://localhost:3000" (FormattedUrl.mk "http://localhost:3000")
    (FormattedUrl.mk "http://localhost:3000") "http://explorer.example" 144
    "17FA4747F5014B50" false [] ["http://localhost:3000"] 0 [] none []

/-- Transport fixture in which the second call (getNodeInfo)
fails after getNetworkType succeeded. -/
def failNodeInfoTransport : InitTransport :=
  InitTransport.mk (Except.ok 144) (Except.error (JsError.transportError "connection refused"))
    (Except.ok 10)

/-- Transport fixture in which all three calls succeed. -/
def okTransport : InitTransport :=
  InitTransport.mk (Except.ok 152) (Except.ok (PeerInfo.mk "node1")) (Except.ok 777)

/-- Cached block fixture for the cache-hit claim. -/
def sampleBlock : Block := Block.mk 50 "C19E1CA"

/-- Store state whose block cache already holds height 50. -/
def cachedState : NetworkState := { sampleState with knownBlocks := [(50, sampleBlock)] }

/-- C1 counterexample: when getNetworkType succeeds and
getNodeInfo then fails, the failed run of the initialization
action has already mutated the state, flipping isConnected from
false to true, even though isInitialized stays false, so the
claim that no field is mutated by a failed attempt is false. -/
theorem C1_counterexample :
    (initializeAction sampleUrlHelpers failNodeInfoTransport sampleState).isConnected = true ∧
    sampleState.isConnected = false ∧
    (initializeAction sampleUrlHelpers failNodeInfoTransport sampleState).initialized = false :=
  ⟨rfl, rfl, rfl⟩

/-- C1 (amended): on any transport failure the initialization
action returns without raising and without touching initialized,
networkType, currentHeight or currentPeerInfo; if the first call
(network type) failed the state is exactly unchanged, while if a
later call failed the state carries exactly the mutations already
committed before the failure, namely the recommitted current peer
with its websocket endpoint and isConnected set to true. -/
theorem C1_theorem (U : UrlHelpers) (t : InitTransport) (s : NetworkState)
    (hfail : exceptIsOk t.getNetworkType = false ∨ exceptIsOk t.getNodeInfo = false ∨
      exceptIsOk t.getBlockchainHeight = false) :
    (initializeAction U t s).initialized = s.initialized ∧
    (initializeAction U t s).networkType = s.networkType ∧
    (initializeAction U t s).currentHeight = s.currentHeight ∧
    (initializeAction U t s).currentPeerInfo = s.currentPeerInfo ∧
    (exceptIsOk t.getNetworkType = false → initializeAction U t s = s) ∧
    (exceptIsOk t.getNetworkType = true →
      initializeAction U t s =
        { mutCurrentPeer U s s.currentPeer.url with isConnected := true }) := by
  obtain ⟨nt, ni, nh⟩ := t
  cases nt <;> cases ni <;> cases nh <;>
    simp_all [initializeAction, exceptIsOk, mutCurrentPeer, mutNetworkType]

/-- C1 witness: the amended statement evaluated on the fixture in
which getNodeInfo fails. -/
theorem C1_witness :
    (initializeAction sampleUrlHelpers failNodeInfoTransport sampleState).initialized =
      sampleState.initialized ∧
    (initializeAction sampleUrlHelpers failNodeInfoTransport sampleState).networkType =
      sampleState.networkType ∧
    (initializeAction sampleUrlHelpers failNodeInfoTransport sampleState).currentHeight =
      sampleState.currentHeight ∧
    (initializeAction sampleUrlHelpers failNodeInfoTransport sampleState).currentPeerInfo =
      sampleState.currentPeerInfo ∧
    (exceptIsOk failNodeInfoTransport.getNetworkType = false →
      initializeAction sampleUrlHelpers failNodeInfoTransport sampleState = sampleState) ∧
    (exceptIsOk failNodeInfoTransport.getNetworkType = true →
      initializeAction sampleUrlHelpers failNodeInfoTransport sampleState =
        { mutCurrentPeer sampleUrlHelpers sampleState sampleState.currentPeer.url with
            isConnected := true }) :=
  C1_theorem sampleUrlHelpers failNodeInfoTransport sampleState (Or.inr (Or.inl rfl))

/-- C2: every call to REST_FETCH_BLOCKS with a nonempty height
list rejects with the TypeError thrown by knownBlocks.find on the
first filtered element (Network.ts line 284, before the try
block), so the action neither returns the cached plus fetched
blocks nor the failure signal false; the store state is untouched. -/
theorem C2_theorem (s : NetworkState) (h : JsNum) (hs : List JsNum) :
    (REST_FETCH_BLOCKS s (h :: hs)).result =
      Except.error (JsError.typeError "knownBlocks.find is not a function") ∧
    (REST_FETCH_BLOCKS s (h :: hs)).state = s :=
  ⟨rfl, rfl⟩

/-- C3: on four distinct non-adjacent heights the planner yields
four ranges and the truncation logic of lines 292 to 301 keeps the
first three, but the deferred dispatch captures the already
truncated list and therefore passes the empty list instead of the
fourth range; moreover the full action on that input rejects with
the TypeError of line 284 before the planner even runs. -/
theorem C3_theorem :
    getBlockRanges [JsNum.num 50, JsNum.num 200, JsNum.num 350, JsNum.num 500] =
      [BlockRange.mk (JsNum.num 50), BlockRange.mk (JsNum.num 200),
       BlockRange.mk (JsNum.num 350), BlockRange.mk (JsNum.num 500)] ∧
    planExecution (getBlockRanges [JsNum.num 50, JsNum.num 200, JsNum.num 350, JsNum.num 500]) =
      ([BlockRange.mk (JsNum.num 50), BlockRange.mk (JsNum.num 200),
        BlockRange.mk (JsNum.num 350)], some []) ∧
    (REST_FETCH_BLOCKS sampleState
        [JsNum.num 50, JsNum.num 200, JsNum.num 350, JsNum.num 500]).result =
      Except.error (JsError.typeError "knownBlocks.find is not a function") :=
  ⟨by decide, by decide, rfl⟩

/-- C4: a request for a height that is already cached does not
serve it from the cache: the lookup knownBlocks.find throws a
TypeError because the cache is a plain object without a find
method, so the action rejects; no transport call is issued, but
only because the whole action failed. -/
theorem C4_theorem :
    (50, sampleBlock) ∈ cachedState.knownBlocks ∧
    (REST_FETCH_BLOCKS cachedState [JsNum.num 50]).result =
      Except.error (JsError.typeError "knownBlocks.find is not a function") ∧
    (REST_FETCH_BLOCKS cachedState [JsNum.num 50]).transportCalls = [] :=
  ⟨by decide, rfl, rfl⟩

/-- C5 counterexample: on the empty height set the planner still
pushes a range, whose start is Infinity (Math.min of no arguments)
and hence not a member of the empty input set. -/
theorem C5_counterexample :
    getBlockRanges ([] : List JsNum) = [BlockRange.mk JsNum.inf] ∧
    BlockRange.mk JsNum.inf ∈ getBlockRanges ([] : List JsNum) ∧
    JsNum.inf ∉ ([] : List JsNum) :=
  ⟨rfl, by decide, by decide⟩

/-- C5 (amended): for every nonempty height set the planned ranges
have strictly increasing start values and every start is a member
of the input set. -/
theorem C5_theorem (heights : List JsNum) (hne : heights ≠ []) :
    List.Pairwise (fun a b : BlockRange => jsLt a.start b.start = true)
      (getBlockRanges heights) ∧
    ∀ r ∈ getBlockRanges heights, r.start ∈ heights :=
  ⟨getBlockRangesFuel_pairwise _ _, getBlockRangesFuel_start_mem _ _ hne⟩

/-- C5 witness: the amended statement evaluated on an unsorted
two-element height set. -/
theorem C5_witness :
    List.Pairwise (fun a b : BlockRange => jsLt a.start b.start = true)
      (getBlockRanges [JsNum.num 200, JsNum.num 50]) ∧
    ∀ r ∈ getBlockRanges [JsNum.num 200, JsNum.num 50],
      r.start ∈ [JsNum.num 200, JsNum.num 50] :=
  C5_theorem [JsNum.num 200, JsNum.num 50] (by decide)

/-- C6: after the range at the minimum m is emitted, the recursion
receives only heights strictly greater than m plus 100, so every
later range starts strictly above that bound; and the three
boundary examples of the spec evaluate as stated. -/
theorem C6_theorem :
    (∀ heights : List JsNum, heights ≠ [] →
      ∀ r ∈ (getBlockRanges heights).tail,
        jsLt (jsAdd (mathMin heights) (JsNum.num 100)) r.start = true) ∧
    getBlockRanges [JsNum.num 50] = [BlockRange.mk (JsNum.num 50)] ∧
    getBlockRanges [JsNum.num 50, JsNum.num 200] =
      [BlockRange.mk (JsNum.num 50), BlockRange.mk (JsNum.num 200)] ∧
    getBlockRanges [JsNum.num 50, JsNum.num 140] = [BlockRange.mk (JsNum.num 50)] :=
  ⟨getBlockRanges_tail_gt, by decide, by decide, by decide⟩

/-- C6 witness: the general conjunct evaluated on the height set
with elements 50 and 200, whose second range starts at 200. -/
theorem C6_witness :
    jsLt (jsAdd (mathMin [JsNum.num 50, JsNum.num 200]) (JsNum.num 100))
      (BlockRange.mk (JsNum.num 200)).start = true :=
  C6_theorem.1 [JsNum.num 50, JsNum.num 200] (by decide) (BlockRange.mk (JsNum.num 200))
    (by decide)

/-- C7: when all three transport calls succeed, the initialization
action leaves the store connected and initialized with the current
height returned by the blockchain height call. -/
theorem C7_theorem (U : UrlHelpers) (t : InitTransport) (s : NetworkState)
    (nt : Nat) (pinfo : PeerInfo) (hgt : Nat)
    (h1 : t.getNetworkType = Except.ok nt) (h2 : t.getNodeInfo = Except.ok pinfo)
    (h3 : t.getBlockchainHeight = Except.ok hgt) :
    (initializeAction U t s).isConnected = true ∧
    (initializeAction U t s).initialized = true ∧
    (initializeAction U t s).currentHeight = hgt := by
  simp [initializeAction, h1, h2, h3, mutCurrentPeer, mutNetworkType]

/-- C7 witness: the successful transport fixture yields the
connected, initialized state at height 777. -/
theorem C7_witness :
    (initializeAction sampleUrlHelpers okTransport sampleState).isConnected = true ∧
    (initializeAction sampleUrlHelpers okTransport sampleState).initialized = true ∧
    (initializeAction sampleUrlHelpers okTransport sampleState).currentHeight = 777 :=
  C7_theorem sampleUrlHelpers okTransport sampleState 152 (PeerInfo.mk "node1") 777 rfl rfl rfl

/-- C8: for every syntactically invalid URL the SET_CURRENT_PEER
action throws the validation error before any commit, so the error
reaches the caller together with the entirely unchanged state. -/
theorem C8_theorem (U : UrlHelpers) (t : InitTransport) (s : NetworkState) (u : String)
    (h : U.isValidURL u = false) :
    SET_CURRENT_PEER U t s u =
      Except.error
        (JsError.validationError ("Cannot change node. URL is not valid: " ++ u), s) := by
  simp [SET_CURRENT_PEER, h]

/-- C8 witness: the invalid URL literal is rejected with the
validation error and the sample state is untouched. -/
theorem C8_witness :
    SET_CURRENT_PEER sampleUrlHelpers okTransport sampleState "not a url" =
      Except.error
        (JsError.validationError ("Cannot change node. URL is not valid: " ++ "not a url"),
          sampleState) :=
  C8_theorem sampleUrlHelpers okTransport sampleState "not a url" (by decide)

/-- C9: REMOVE_KNOWN_PEER on a URL absent from the known peers is
not a no-op: it throws a TypeError, because line 120 passes the
URL string itself to Array.prototype.findIndex, which requires a
callable predicate; the state is unchanged only because the throw
happens before any mutation. -/
theorem C9_theorem :
    "http://absent.example:3000" ∉ sampleState.knownPeers ∧
    REMOVE_KNOWN_PEER sampleState "http://absent.example:3000" =
      Except.error (JsError.typeError "peerUrl is not a function", sampleState) :=
  ⟨by decide, rfl⟩

/-- C10: the recursion of getBlockRanges is well founded on the
list length: the filter step strictly shortens every nonempty
height list (the minimum never survives it), and consequently fuel
exceeding the list length reproduces getBlockRanges exactly. -/
theorem C10_theorem :
    (∀ heights : List JsNum, heights ≠ [] →
      (heights.filter (fun height =>
          jsLt (jsAdd (mathMin heights) (JsNum.num 100)) height)).length < heights.length) ∧
    (∀ (fuel : Nat) (heights : List JsNum), heights.length < fuel →
      getBlockRangesFuel fuel heights = getBlockRanges heights) :=
  ⟨blockRangesFilter_length_lt, getBlockRangesFuel_suff⟩

/-- C10 witness: the shortening step and the fuel sufficiency
evaluated on concrete height lists. -/
theorem C10_witness :
    (([JsNum.num 50, JsNum.num 140].filter (fun height =>
        jsLt (jsAdd (mathMin [JsNum.num 50, JsNum.num 140]) (JsNum.num 100)) height)).length <
      [JsNum.num 50, JsNum.num 140].length) ∧
    getBlockRangesFuel 9 [JsNum.num 50, JsNum.num 200] =
      getBlockRanges [JsNum.num 50, JsNum.num 200] :=
  ⟨C10_theorem.1 [JsNum.num 50, JsNum.num 140] (by decide),
   C10_theorem.2 9 [JsNum.num 50, JsNum.num 200] (by decide)⟩
